import Mathlib

/-!
Verification development for the promise-to-resource adapter (`wrapPromise`),
the resource bundle builder (`fetchCodeReviewerData` and its endpoint
functions in `myEndPoints.ts`), and the navigation controller
(`getNextId` / `handleClick` in `reviewerDetailsApp`).

The scheduling model of the source is single-threaded and cooperative: every
promise settles at one definite logical time (the `setTimeout` delay), and the
single completion handler installed by `wrapPromise` is the only writer of the
closure variables `status` / `result`.  A promise is therefore embedded as its
settle time together with its outcome, and the adapter closure's mutable state
is a pure function of the current time: before the settle time it is the
initial state written by `wrapPromise` itself, from the settle time on it is
the state written by the single completion handler.
-/

/-- A settled-outcome view of a JS promise: the logical time at which it
settles and whether it fulfills (with a value) or rejects (with a reason,
modelled as a `String`). -/
structure SimPromise (α : Type) where
  settleTime : Nat
  outcome : Except String α
deriving Repr

/-- The suspender of `wrapPromise`: `promise.then(onOk, onErr)` where both
handlers return `undefined`, so the suspender always fulfills (with `unit`)
at the moment the wrapped promise settles. -/
def suspenderOf {α : Type} (p : SimPromise α) : SimPromise Unit :=
  { settleTime := p.settleTime, outcome := Except.ok () }

/-- The mutable closure state of `wrapPromise`: `let status = "pending"` and
`let result` (initially `undefined`, hence the `Option`; once written it holds
either the fulfillment value or the rejection reason, hence the `Except`). -/
structure WrapCell (α : Type) where
  status : String
  result : Option (Except String α)
deriving Repr

/-- The state written by `wrapPromise` itself at construction:
`status = "pending"`, `result` undefined. -/
def initCell (α : Type) : WrapCell α :=
  { status := "pending", result := none }

/-- The state written by the single completion handler of the wrapped
promise: the fulfillment branch sets `status = "success"` and stores the
response in `result`; the rejection branch sets `status = "error"` and stores
the reason in `result`. -/
def completeCell {α : Type} (o : Except String α) : WrapCell α :=
  match o with
  | Except.ok v => { status := "success", result := some (Except.ok v) }
  | Except.error e => { status := "error", result := some (Except.error e) }

/-- The closure state of the resource returned by `wrapPromise p` at logical
time `t`: before `p` settles it is the construction-time state; from the
settle time on it is the state written by the completion handler. -/
def cellAt {α : Type} (p : SimPromise α) (t : Nat) : WrapCell α :=
  if t < p.settleTime then initCell α else completeCell p.outcome

/-- What a call to `read()` does: it either throws the suspender promise,
throws the stored `result` (the rejection reason), returns the stored
`result` (the fulfillment value), or falls through the `if`/`else if` chain
and returns `undefined`. -/
inductive ReadOutcome (α : Type) where
  | throwSuspender (susp : SimPromise Unit)
  | throwResult (r : Option (Except String α))
  | returnResult (r : Option (Except String α))
  | returnUndefined
deriving Repr

/-- Events observable on the console / network layer: an endpoint function
was invoked, i.e. the underlying asynchronous operation was started
(`console.log("fetching ...")` plus the `setTimeout` registration). -/
inductive Event where
  | fetchStart (endpointName : String) (id : Int)
deriving DecidableEq, Repr

/-- Literal translation of the body of `read()` in `wrapPromise`:
dispatch on the captured `status` string, throwing `suspender` when pending,
throwing `result` on error, returning `result` on success, and returning
`undefined` on the unguarded fall-through.  The body contains no assignment
and no call to any fetcher, so the returned post-state is the input cell and
the emitted event trace is empty. -/
def readFn {α : Type} (c : WrapCell α) (susp : SimPromise Unit) :
    ReadOutcome α × WrapCell α × List Event :=
  if c.status = "pending" then (ReadOutcome.throwSuspender susp, c, [])
  else if c.status = "error" then (ReadOutcome.throwResult c.result, c, [])
  else if c.status = "success" then (ReadOutcome.returnResult c.result, c, [])
  else (ReadOutcome.returnUndefined, c, [])

/-- The resource object returned by `wrapPromise`: its only state is the
wrapped promise (from which the closure state at any time is derived). -/
structure WrappedResource (α : Type) where
  promise : SimPromise α
deriving Repr

/-- `wrapPromise`: wraps a promise into a resource exposing `read()`. -/
def wrapPromise {α : Type} (p : SimPromise α) : WrappedResource α :=
  { promise := p }

/-- Calling `read()` on the resource `wrapPromise p` at logical time `t`. -/
def readAt {α : Type} (p : SimPromise α) (t : Nat) :
    ReadOutcome α × WrapCell α × List Event :=
  readFn (cellAt p t) (suspenderOf p)

/- Backing data of `myEndPoints.ts` ("02 concurrent UI patterns"). -/

/-- `CodeReviewer` record. -/
structure CodeReviewer where
  name : String
  id : Int
deriving DecidableEq, Repr

/-- `CodeReviewComment` record. -/
structure CodeReviewComment where
  id : Int
  text : String
  reviewerId : Int
deriving DecidableEq, Repr

/-- `BE_REVIEWERS` backing array. -/
def BE_REVIEWERS : List CodeReviewer :=
  [ { name := "Marioli", id := 3 },
    { name := "Carlos", id := 5 },
    { name := "Lucia", id := 7 } ]

/-- `BE_COMMENTS` backing array. -/
def BE_COMMENTS : List CodeReviewComment :=
  [ { id := 0, reviewerId := 3, text := "I do not like this true here, I will create a constant with a meaning name" },
    { id := 1, reviewerId := 3, text := "From my point of view make the code less readable" },
    { id := 2, reviewerId := 3, text := "What does it do?" },
    { id := 3, reviewerId := 5, text := "Please, refactor to functional component" },
    { id := 4, reviewerId := 5, text := "The trees do not let you see the forest" },
    { id := 5, reviewerId := 7, text := "No comments" } ]

/-- The literal array inside `fetchUsersResponseToReviewer`. -/
def BE_RESPONSES : List CodeReviewComment :=
  [ { id := 0, text := "WAT", reviewerId := 3 },
    { id := 0, text := "I don\x27t like trees", reviewerId := 5 },
    { id := 0, text := "OK", reviewerId := 7 } ]

/-- `fetchReviewer(id)`: logs the start, registers a 300-unit timeout, and
resolves with `BE_REVIEWERS.find(r => r.id === id)` (which is `undefined` —
here `none` — when no reviewer matches; the promise never rejects). -/
def fetchReviewer (id : Int) : SimPromise (Option CodeReviewer) × List Event :=
  ({ settleTime := 300,
     outcome := Except.ok (BE_REVIEWERS.find? (fun r => r.id == id)) },
   [Event.fetchStart "fetchReviewer" id])

/-- `fetchCommentsForReviewer(id)`: logs the start, registers an 800-unit
timeout, and resolves with `BE_COMMENTS.filter(c => c.reviewerId === id)`. -/
def fetchCommentsForReviewer (id : Int) :
    SimPromise (List CodeReviewComment) × List Event :=
  ({ settleTime := 800,
     outcome := Except.ok (BE_COMMENTS.filter (fun c => c.reviewerId == id)) },
   [Event.fetchStart "fetchCommentsForReviewer" id])

/-- `fetchUsersResponseToReviewer(id)`: logs the start, registers a 1500-unit
timeout, and resolves with the responses array filtered by `reviewerId`. -/
def fetchUsersResponseToReviewer (id : Int) :
    SimPromise (List CodeReviewComment) × List Event :=
  ({ settleTime := 1500,
     outcome := Except.ok (BE_RESPONSES.filter (fun r => r.reviewerId == id)) },
   [Event.fetchStart "fetchUsersResponseToReviewer" id])

/-- The object returned by `fetchCodeReviewerData`: the identifying key `id`
together with the three wrapped slots (the `ReviewerResource` shape consumed
by `reviewerDetailsApp`). -/
structure ReviewerResource where
  id : Int
  reviewer : WrappedResource (Option CodeReviewer)
  comments : WrappedResource (List CodeReviewComment)
  responses : WrappedResource (List CodeReviewComment)
deriving Repr

/-- `fetchCodeReviewerData(id)`: calls the three endpoint functions (starting
all three operations at construction time) and returns the bundle `{ id,
reviewer, comments, responses }` with each promise wrapped by `wrapPromise`.
The second component is the trace of operation-start events emitted during
construction, in order. -/
def fetchCodeReviewerData (id : Int) : ReviewerResource × List Event :=
  let cr := fetchReviewer id
  let cm := fetchCommentsForReviewer id
  let rs := fetchUsersResponseToReviewer id
  ({ id := id,
     reviewer := wrapPromise cr.1,
     comments := wrapPromise cm.1,
     responses := wrapPromise rs.1 },
   cr.2 ++ cm.2 ++ rs.2)

/-- The three named slots of a `ReviewerResource` bundle. -/
inductive SlotName where
  | reviewer
  | comments
  | responses
deriving DecidableEq, Repr

/-- Events emitted by calling `read()` on one slot of a bundle at time `t`
(always none: `read` only inspects the stored status and result). -/
def slotReadEvents (b : ReviewerResource) : SlotName × Nat → List Event
  | (SlotName.reviewer, t) => (readAt b.reviewer.promise t).2.2
  | (SlotName.comments, t) => (readAt b.comments.promise t).2.2
  | (SlotName.responses, t) => (readAt b.responses.promise t).2.2

/-- Events emitted by an arbitrary sequence of `read()` calls against a
bundle: each element of `reads` names a slot and the time of the call. -/
def runReadEvents (b : ReviewerResource) (reads : List (SlotName × Nat)) :
    List Event :=
  reads.foldr (fun r acc => slotReadEvents b r ++ acc) []

/- Navigation controller of `reviewerDetailsApp` (src/unnamed/part_001). -/

/-- `getNextId`: `switch` mapping 3 to 5, 5 to 7, and everything else
(default branch) to 3. -/
def getNextId (id : Int) : Int :=
  if id = 3 then 5
  else if id = 5 then 7
  else 3

/-- The `TABS` enum of `reviewerDetailsApp`. -/
inductive TABS where
  | HOME
  | REVIEWER_DETAILS
deriving DecidableEq, Repr

/-- The controller state: the `resource` and `tab` `useState` cells of
`ReviewerDetailsApp`. -/
structure AppState where
  resource : ReviewerResource
  tab : TABS
deriving Repr

/-- `initialResource = fetchCodeReviewerData(3)` together with the initial
`tab` state `TABS.HOME`. -/
def initialAppState : AppState :=
  { resource := (fetchCodeReviewerData 3).1, tab := TABS.HOME }

/-- `handleClick`: computes `getNextId(resource.id)`, installs the freshly
constructed bundle for that id with a single `setResource` call, and switches
the tab.  The event trace is the one emitted by the bundle construction. -/
def handleClick (s : AppState) : AppState × List Event :=
  let nextUserId := getNextId s.resource.id
  let next := fetchCodeReviewerData nextUserId
  ({ resource := next.1, tab := TABS.REVIEWER_DETAILS }, next.2)

/-- One navigation action: the state after `handleClick`. -/
def navStep (s : AppState) : AppState :=
  (handleClick s).1

/-- Controller states reachable from the initial state by navigation
actions. -/
inductive Reachable : AppState → Prop where
  | init : Reachable initialAppState
  | next {s : AppState} : Reachable s → Reachable (navStep s)

/- Claim theorems. -/

/-- C1: for every promise `p` and every `read()` call on `wrapPromise p`:
while `p` is pending, `read()` throws the suspender promise itself; once `p`
has rejected, `read()` throws the stored rejection reason verbatim; once `p`
has fulfilled, `read()` returns the stored fulfillment value synchronously
with no side effects (state unchanged, no events emitted). -/
theorem wrapPromise_read_cases {α : Type} (p : SimPromise α) (t : Nat) :
    (t < p.settleTime →
      (readAt p t).1 = ReadOutcome.throwSuspender (suspenderOf p)) ∧
    (p.settleTime ≤ t → ∀ e, p.outcome = Except.error e →
      (readAt p t).1 = ReadOutcome.throwResult (some (Except.error e))) ∧
    (p.settleTime ≤ t → ∀ v, p.outcome = Except.ok v →
      (readAt p t).1 = ReadOutcome.returnResult (some (Except.ok v)) ∧
      (readAt p t).2.1 = cellAt p t ∧ (readAt p t).2.2 = []) := by
  refine ⟨?_, ?_, ?_⟩
  · intro h
    simp [readAt, readFn, cellAt, h, initCell]
  · intro h e he
    simp [readAt, readFn, cellAt, Nat.not_lt.mpr h, he, completeCell]
  · intro h v hv
    simp [readAt, readFn, cellAt, Nat.not_lt.mpr h, hv, completeCell]

/-- Witness for C1 at the concrete promise that fulfills with `5` at time 2,
read at time 4. -/
theorem wrapPromise_read_cases_witness :
    (2 ≤ 4) ∧
    (readAt (⟨2, Except.ok 5⟩ : SimPromise Nat) 4).1 =
      ReadOutcome.returnResult (some (Except.ok 5)) :=
  ⟨by decide,
   ((wrapPromise_read_cases (⟨2, Except.ok 5⟩ : SimPromise Nat) 4).2.2
      (by decide) 5 rfl).1⟩

/-- C3: the adapter's status moves monotonically from `"pending"` to exactly
one of `"success"` / `"error"` (determined by the promise's outcome) and
never changes afterwards; the cell is the construction-time state before the
settle time and the state written by the single completion handler from then
on, so status and result are each written exactly once, and the meaningful
component of `result` is gated by `status`. -/
theorem wrapPromise_status_monotone {α : Type} (p : SimPromise α) (t t' : Nat) :
    ((cellAt p t).status = "pending" ∨ (cellAt p t).status = "success" ∨
      (cellAt p t).status = "error") ∧
    (t < p.settleTime → cellAt p t = initCell α) ∧
    (p.settleTime ≤ t → cellAt p t = completeCell p.outcome) ∧
    (t ≤ t' → (cellAt p t).status ≠ "pending" → cellAt p t' = cellAt p t) ∧
    ((cellAt p t).status = "success" →
      ∃ v, p.outcome = Except.ok v ∧ (cellAt p t).result = some (Except.ok v)) ∧
    ((cellAt p t).status = "error" →
      ∃ e, p.outcome = Except.error e ∧
        (cellAt p t).result = some (Except.error e)) := by
  refine ⟨?_, ?_, ?_, ?_, ?_, ?_⟩
  · by_cases h : t < p.settleTime
    · simp [cellAt, h, initCell]
    · cases ho : p.outcome with
      | ok v => simp [cellAt, h, ho, completeCell]
      | error e => simp [cellAt, h, ho, completeCell]
  · intro h
    simp [cellAt, h]
  · intro h
    simp [cellAt, Nat.not_lt.mpr h]
  · intro htt' hne
    by_cases h : t < p.settleTime
    · exact absurd (by simp [cellAt, h, initCell]) hne
    · have h2 : ¬ t' < p.settleTime :=
        fun hl => h (lt_of_le_of_lt htt' hl)
      simp [cellAt, h, h2]
  · intro hs
    by_cases h : t < p.settleTime
    · simp [cellAt, h, initCell] at hs
    · cases ho : p.outcome with
      | ok v =>
        exact ⟨v, rfl, by simp [cellAt, h, ho, completeCell]⟩
      | error e =>
        simp [cellAt, h, ho, completeCell] at hs
  · intro hs
    by_cases h : t < p.settleTime
    · simp [cellAt, h, initCell] at hs
    · cases ho : p.outcome with
      | ok v =>
        simp [cellAt, h, ho, completeCell] at hs
      | error e =>
        exact ⟨e, rfl, by simp [cellAt, h, ho, completeCell]⟩

/-- Witness for C3 at the promise fulfilling with `5` at time 2, observed at
times 3 and 7: the terminal state persists. -/
theorem wrapPromise_status_monotone_witness :
    (3 ≤ 7) ∧ ((cellAt (⟨2, Except.ok 5⟩ : SimPromise Nat) 3).status ≠ "pending") ∧
    cellAt (⟨2, Except.ok 5⟩ : SimPromise Nat) 7 =
      cellAt (⟨2, Except.ok 5⟩ : SimPromise Nat) 3 :=
  ⟨by decide, by decide,
   (wrapPromise_status_monotone (⟨2, Except.ok 5⟩ : SimPromise Nat) 3 7).2.2.2.1
     (by decide) (by decide)⟩

/-- C4: once the wrapped promise has settled, `read()` is idempotent and
side-effect-free: any two calls after settlement produce identical outcomes
(the stored value after fulfillment, the stored error after rejection), emit
no events, and leave the cell unchanged between calls. -/
theorem read_idempotent_after_settle {α : Type} (p : SimPromise α) (t t' : Nat)
    (h : p.settleTime ≤ t) (h' : p.settleTime ≤ t') :
    readAt p t = readAt p t' ∧
    (readAt p t).2.1 = cellAt p t ∧
    (readAt p t).2.2 = [] ∧
    cellAt p t = cellAt p t' ∧
    (∀ v, p.outcome = Except.ok v →
      (readAt p t).1 = ReadOutcome.returnResult (some (Except.ok v))) ∧
    (∀ e, p.outcome = Except.error e →
      (readAt p t).1 = ReadOutcome.throwResult (some (Except.error e))) := by
  have hc : cellAt p t = completeCell p.outcome := by
    simp [cellAt, Nat.not_lt.mpr h]
  have hc' : cellAt p t' = completeCell p.outcome := by
    simp [cellAt, Nat.not_lt.mpr h']
  refine ⟨?_, ?_, ?_, ?_, ?_, ?_⟩
  · simp [readAt, hc, hc']
  · cases ho : p.outcome with
    | ok v => simp [readAt, readFn, hc, ho, completeCell]
    | error e => simp [readAt, readFn, hc, ho, completeCell]
  · cases ho : p.outcome with
    | ok v => simp [readAt, readFn, hc, ho, completeCell]
    | error e => simp [readAt, readFn, hc, ho, completeCell]
  · rw [hc, hc']
  · intro v hv
    simp [readAt, readFn, hc, hv, completeCell]
  · intro e he
    simp [readAt, readFn, hc, he, completeCell]

/-- Witness for C4 at the promise rejecting with `"boom"` at time 2, read at
times 3 and 9: both reads throw the same stored error. -/
theorem read_idempotent_after_settle_witness :
    (2 ≤ 3) ∧ (2 ≤ 9) ∧
    readAt (⟨2, Except.error "boom"⟩ : SimPromise Nat) 3 =
      readAt (⟨2, Except.error "boom"⟩ : SimPromise Nat) 9 :=
  ⟨by decide, by decide,
   (read_idempotent_after_settle (⟨2, Except.error "boom"⟩ : SimPromise Nat)
      3 9 (by decide) (by decide)).1⟩

/-- C8: the status dispatch of `read()` is exhaustive: the closure's status
only ever holds `"pending"`, `"success"` or `"error"`, so the unguarded
fall-through of the `if`/`else if` chain is unreachable and `read()` never
returns `undefined`. -/
theorem read_dispatch_exhaustive {α : Type} (p : SimPromise α) (t : Nat) :
    ((cellAt p t).status = "pending" ∨ (cellAt p t).status = "success" ∨
      (cellAt p t).status = "error") ∧
    (readAt p t).1 ≠ ReadOutcome.returnUndefined := by
  constructor
  · by_cases h : t < p.settleTime
    · simp [cellAt, h, initCell]
    · cases ho : p.outcome with
      | ok v => simp [cellAt, h, ho, completeCell]
      | error e => simp [cellAt, h, ho, completeCell]
  · by_cases h : t < p.settleTime
    · simp [readAt, readFn, cellAt, h, initCell]
    · cases ho : p.outcome with
      | ok v => simp [readAt, readFn, cellAt, h, ho, completeCell]
      | error e => simp [readAt, readFn, cellAt, h, ho, completeCell]

/- Shared helper lemmas about the adapter. -/

/-- `read()` never mutates the closure state and never emits an event. -/
theorem readFn_state_events {α : Type} (c : WrapCell α) (susp : SimPromise Unit) :
    (readFn c susp).2.1 = c ∧ (readFn c susp).2.2 = [] := by
  unfold readFn
  split_ifs <;> exact ⟨rfl, rfl⟩

/-- `read()` emits no events at any time. -/
theorem readAt_events {α : Type} (p : SimPromise α) (t : Nat) :
    (readAt p t).2.2 = [] :=
  (readFn_state_events _ _).2

/-- Before the settle time the closure state is the construction state. -/
theorem cellAt_of_lt {α : Type} {p : SimPromise α} {t : Nat}
    (h : t < p.settleTime) : cellAt p t = initCell α := by
  simp [cellAt, h]

/-- From the settle time on the closure state is the handler-written state. -/
theorem cellAt_of_le {α : Type} {p : SimPromise α} {t : Nat}
    (h : p.settleTime ≤ t) : cellAt p t = completeCell p.outcome := by
  simp [cellAt, Nat.not_lt.mpr h]

/-- `read()` on a still-pending resource throws the suspender. -/
theorem readAt_of_pending {α : Type} {p : SimPromise α} {t : Nat}
    (h : t < p.settleTime) :
    (readAt p t).1 = ReadOutcome.throwSuspender (suspenderOf p) := by
  simp [readAt, readFn, cellAt_of_lt h, initCell]

/-- `read()` on a fulfilled resource returns the stored value. -/
theorem readAt_of_ok {α : Type} {p : SimPromise α} {t : Nat} {v : α}
    (h : p.settleTime ≤ t) (hv : p.outcome = Except.ok v) :
    (readAt p t).1 = ReadOutcome.returnResult (some (Except.ok v)) := by
  simp [readAt, readFn, cellAt_of_le h, hv, completeCell]

/-- `read()` on a rejected resource throws the stored reason. -/
theorem readAt_of_error {α : Type} {p : SimPromise α} {t : Nat} {e : String}
    (h : p.settleTime ≤ t) (he : p.outcome = Except.error e) :
    (readAt p t).1 = ReadOutcome.throwResult (some (Except.error e)) := by
  simp [readAt, readFn, cellAt_of_le h, he, completeCell]

/-- C2: the underlying operations of a bundle are started exactly once each,
at construction time: constructing `fetchCodeReviewerData id` emits exactly
one start event per endpoint, any sequence of `read()` calls against the
bundle emits no events at all, and in the combined trace of construction
followed by the reads each operation-start occurs exactly once. -/
theorem bundle_single_fire (id : Int) (reads : List (SlotName × Nat)) :
    (fetchCodeReviewerData id).2 =
      [Event.fetchStart "fetchReviewer" id,
       Event.fetchStart "fetchCommentsForReviewer" id,
       Event.fetchStart "fetchUsersResponseToReviewer" id] ∧
    runReadEvents (fetchCodeReviewerData id).1 reads = [] ∧
    ((fetchCodeReviewerData id).2 ++
        runReadEvents (fetchCodeReviewerData id).1 reads).count
      (Event.fetchStart "fetchReviewer" id) = 1 ∧
    ((fetchCodeReviewerData id).2 ++
        runReadEvents (fetchCodeReviewerData id).1 reads).count
      (Event.fetchStart "fetchCommentsForReviewer" id) = 1 ∧
    ((fetchCodeReviewerData id).2 ++
        runReadEvents (fetchCodeReviewerData id).1 reads).count
      (Event.fetchStart "fetchUsersResponseToReviewer" id) = 1 := by
  have hrun : runReadEvents (fetchCodeReviewerData id).1 reads = [] := by
    induction reads with
    | nil => rfl
    | cons r rest ih =>
      obtain ⟨s, t⟩ := r
      have hstep : runReadEvents (fetchCodeReviewerData id).1 ((s, t) :: rest) =
          slotReadEvents (fetchCodeReviewerData id).1 (s, t) ++
            runReadEvents (fetchCodeReviewerData id).1 rest := rfl
      rw [hstep, ih]
      cases s <;> simp [slotReadEvents, readAt_events]
  refine ⟨rfl, hrun, ?_, ?_, ?_⟩ <;>
    rw [hrun] <;>
    simp [fetchCodeReviewerData, fetchReviewer, fetchCommentsForReviewer,
      fetchUsersResponseToReviewer, List.count_cons, List.count_nil]

/-- C5: within a bundle built by `fetchCodeReviewerData id`, each slot is
created independently from the others (each one is exactly the wrap of its
own endpoint call for `id`), and replacing one slot's operation by a
rejecting one leaves every sibling slot — its `read()` behaviour at every
time and its eventual outcome — unchanged. -/
theorem bundle_slot_independence (id : Int) (e : String) (t : Nat) :
    (fetchCodeReviewerData id).1.reviewer = wrapPromise (fetchReviewer id).1 ∧
    (fetchCodeReviewerData id).1.comments =
      wrapPromise (fetchCommentsForReviewer id).1 ∧
    (fetchCodeReviewerData id).1.responses =
      wrapPromise (fetchUsersResponseToReviewer id).1 ∧
    ({ (fetchCodeReviewerData id).1 with
        reviewer := wrapPromise ⟨300, Except.error e⟩ }).comments =
      (fetchCodeReviewerData id).1.comments ∧
    ({ (fetchCodeReviewerData id).1 with
        reviewer := wrapPromise ⟨300, Except.error e⟩ }).responses =
      (fetchCodeReviewerData id).1.responses ∧
    readAt ({ (fetchCodeReviewerData id).1 with
        reviewer := wrapPromise ⟨300, Except.error e⟩ }).comments.promise t =
      readAt (fetchCodeReviewerData id).1.comments.promise t ∧
    readAt ({ (fetchCodeReviewerData id).1 with
        reviewer := wrapPromise ⟨300, Except.error e⟩ }).responses.promise t =
      readAt (fetchCodeReviewerData id).1.responses.promise t ∧
    ({ (fetchCodeReviewerData id).1 with
        reviewer := wrapPromise ⟨300, Except.error e⟩ }).comments.promise.outcome =
      Except.ok (BE_COMMENTS.filter (fun c => c.reviewerId == id)) ∧
    ({ (fetchCodeReviewerData id).1 with
        reviewer := wrapPromise ⟨300, Except.error e⟩ }).responses.promise.outcome =
      Except.ok (BE_RESPONSES.filter (fun r => r.reviewerId == id)) ∧
    ({ (fetchCodeReviewerData id).1 with
        comments := wrapPromise ⟨800, Except.error e⟩ }).reviewer =
      (fetchCodeReviewerData id).1.reviewer ∧
    ({ (fetchCodeReviewerData id).1 with
        comments := wrapPromise ⟨800, Except.error e⟩ }).responses =
      (fetchCodeReviewerData id).1.responses ∧
    ({ (fetchCodeReviewerData id).1 with
        comments := wrapPromise ⟨800, Except.error e⟩ }).reviewer.promise.outcome =
      Except.ok (BE_REVIEWERS.find? (fun r => r.id == id)) :=
  ⟨rfl, rfl, rfl, rfl, rfl, rfl, rfl, rfl, rfl, rfl, rfl, rfl⟩

/-- C6: in every controller state reachable by navigation actions, the
installed object is internally consistent — its slots are exactly the
freshly created resources for its own identifying key — and one navigation
action replaces key and slots together: the next state's resource is the
single object `fetchCodeReviewerData (getNextId key)` containing both the
new key and the new slots. -/
theorem handleClick_atomic_swap (s : AppState) (h : Reachable s) :
    s.resource = (fetchCodeReviewerData s.resource.id).1 ∧
    s.resource.reviewer = wrapPromise (fetchReviewer s.resource.id).1 ∧
    s.resource.comments =
      wrapPromise (fetchCommentsForReviewer s.resource.id).1 ∧
    s.resource.responses =
      wrapPromise (fetchUsersResponseToReviewer s.resource.id).1 ∧
    (navStep s).resource =
      (fetchCodeReviewerData (getNextId s.resource.id)).1 ∧
    (navStep s).resource.id = getNextId s.resource.id := by
  have hb : s.resource = (fetchCodeReviewerData s.resource.id).1 := by
    induction h with
    | init => rfl
    | next _ _ => rfl
  refine ⟨hb, ?_, ?_, ?_, rfl, rfl⟩ <;> (rw [hb]; rfl)

/-- Witness for C6 at the initial state (reachable by zero actions). -/
theorem handleClick_atomic_swap_witness :
    Reachable initialAppState ∧
    initialAppState.resource =
      (fetchCodeReviewerData initialAppState.resource.id).1 :=
  ⟨Reachable.init,
   (handleClick_atomic_swap initialAppState Reachable.init).1⟩

/-- C7: for key 3, the reviewer slot settles at 300 time-units with the
reviewer named "Marioli" whose id is 3, the comments slot settles at 800
time-units with exactly the backing comments whose `reviewerId` is 3, and
the responses slot settles at 1500 time-units; `read()` on each slot before
its settle time throws the pending-signal and from the settle time on
returns the resolved value. -/
theorem bundle_key3_timeline (t : Nat) :
    (fetchCodeReviewerData 3).1.reviewer.promise.settleTime = 300 ∧
    (fetchCodeReviewerData 3).1.reviewer.promise.outcome =
      Except.ok (some { name := "Marioli", id := 3 }) ∧
    (fetchCodeReviewerData 3).1.comments.promise.settleTime = 800 ∧
    (fetchCodeReviewerData 3).1.comments.promise.outcome =
      Except.ok (BE_COMMENTS.filter (fun c => c.reviewerId == 3)) ∧
    BE_COMMENTS.filter (fun c => c.reviewerId == 3) =
      [ { id := 0, reviewerId := 3, text := "I do not like this true here, I will create a constant with a meaning name" },
        { id := 1, reviewerId := 3, text := "From my point of view make the code less readable" },
        { id := 2, reviewerId := 3, text := "What does it do?" } ] ∧
    (fetchCodeReviewerData 3).1.responses.promise.settleTime = 1500 ∧
    (fetchCodeReviewerData 3).1.responses.promise.outcome =
      Except.ok [ { id := 0, text := "WAT", reviewerId := 3 } ] ∧
    (t < 300 → (readAt (fetchCodeReviewerData 3).1.reviewer.promise t).1 =
      ReadOutcome.throwSuspender
        (suspenderOf (fetchCodeReviewerData 3).1.reviewer.promise)) ∧
    (300 ≤ t → (readAt (fetchCodeReviewerData 3).1.reviewer.promise t).1 =
      ReadOutcome.returnResult
        (some (Except.ok (some { name := "Marioli", id := 3 })))) ∧
    (t < 800 → (readAt (fetchCodeReviewerData 3).1.comments.promise t).1 =
      ReadOutcome.throwSuspender
        (suspenderOf (fetchCodeReviewerData 3).1.comments.promise)) ∧
    (800 ≤ t → (readAt (fetchCodeReviewerData 3).1.comments.promise t).1 =
      ReadOutcome.returnResult
        (some (Except.ok (BE_COMMENTS.filter (fun c => c.reviewerId == 3))))) ∧
    (t < 1500 → (readAt (fetchCodeReviewerData 3).1.responses.promise t).1 =
      ReadOutcome.throwSuspender
        (suspenderOf (fetchCodeReviewerData 3).1.responses.promise)) ∧
    (1500 ≤ t → (readAt (fetchCodeReviewerData 3).1.responses.promise t).1 =
      ReadOutcome.returnResult
        (some (Except.ok [ { id := 0, text := "WAT", reviewerId := 3 } ]))) := by
  refine ⟨rfl, rfl, rfl, rfl, rfl, rfl, rfl, ?_, ?_, ?_, ?_, ?_, ?_⟩
  · intro h
    exact readAt_of_pending h
  · intro h
    exact readAt_of_ok h rfl
  · intro h
    exact readAt_of_pending h
  · intro h
    exact readAt_of_ok h rfl
  · intro h
    exact readAt_of_pending h
  · intro h
    exact readAt_of_ok h rfl

/-- Witness for C7: `read()` on the reviewer slot at t=0 throws the
pending-signal, and at t=301 returns the reviewer "Marioli". -/
theorem bundle_key3_timeline_witness :
    ((0:Nat) < 300 ∧
      (readAt (fetchCodeReviewerData 3).1.reviewer.promise 0).1 =
        ReadOutcome.throwSuspender
          (suspenderOf (fetchCodeReviewerData 3).1.reviewer.promise)) ∧
    ((300:Nat) ≤ 301 ∧
      (readAt (fetchCodeReviewerData 3).1.reviewer.promise 301).1 =
        ReadOutcome.returnResult
          (some (Except.ok (some { name := "Marioli", id := 3 })))) :=
  ⟨⟨by decide, (bundle_key3_timeline 0).2.2.2.2.2.2.2.1 (by decide)⟩,
   ⟨by decide, (bundle_key3_timeline 301).2.2.2.2.2.2.2.2.1 (by decide)⟩⟩

/-- C9: for every id with no matching backing reviewer (every id outside
3, 5, 7), `fetchReviewer id` fulfills — it never rejects — with the
undefined value (`none`) at its 300-unit timeout, so the wrapping resource
reaches status "success" and `read()` returns that undefined value; the
missing-reviewer case never takes the error channel. -/
theorem fetchReviewer_missing_id (id : Int)
    (h3 : id ≠ 3) (h5 : id ≠ 5) (h7 : id ≠ 7) :
    (fetchReviewer id).1.outcome = Except.ok none ∧
    (fetchReviewer id).1.settleTime = 300 ∧
    (∀ t, 300 ≤ t → (cellAt (fetchReviewer id).1 t).status = "success" ∧
      (readAt (fetchReviewer id).1 t).1 =
        ReadOutcome.returnResult (some (Except.ok none))) ∧
    (∀ t, (cellAt (fetchReviewer id).1 t).status ≠ "error") := by
  have hfind : BE_REVIEWERS.find? (fun r => r.id == id) = none := by
    have e3 : ((3:Int) == id) = false := beq_eq_false_iff_ne.mpr (Ne.symm h3)
    have e5 : ((5:Int) == id) = false := beq_eq_false_iff_ne.mpr (Ne.symm h5)
    have e7 : ((7:Int) == id) = false := beq_eq_false_iff_ne.mpr (Ne.symm h7)
    simp [BE_REVIEWERS, List.find?, e3, e5, e7]
  have hout : (fetchReviewer id).1.outcome = Except.ok none := by
    simp [fetchReviewer, hfind]
  refine ⟨hout, rfl, ?_, ?_⟩
  · intro t ht
    have hst : (fetchReviewer id).1.settleTime ≤ t := ht
    constructor
    · rw [cellAt_of_le hst, hout]
      rfl
    · exact readAt_of_ok hst hout
  · intro t
    by_cases h : t < (fetchReviewer id).1.settleTime
    · rw [cellAt_of_lt h]
      simp [initCell]
    · rw [cellAt_of_le (Nat.not_lt.mp h), hout]
      simp [completeCell]

/-- Witness for C9 at id 4 (no backing reviewer): the promise fulfills with
the undefined value. -/
theorem fetchReviewer_missing_id_witness :
    ((4:Int) ≠ 3 ∧ (4:Int) ≠ 5 ∧ (4:Int) ≠ 7) ∧
    (fetchReviewer 4).1.outcome = Except.ok none :=
  ⟨⟨by decide, by decide, by decide⟩,
   (fetchReviewer_missing_id 4 (by decide) (by decide) (by decide)).1⟩

/-- C10: `getNextId` maps 3 to 5, 5 to 7, and every other number to 3;
hence, starting from the initial bundle for key 3, every reachable
controller state has its bundle key in 3, 5, 7, and each navigation action
moves the key along the 3 → 5 → 7 → 3 cycle. -/
theorem getNextId_cycle_invariant :
    getNextId 3 = 5 ∧ getNextId 5 = 7 ∧ getNextId 7 = 3 ∧
    (∀ n : Int, n ≠ 3 → n ≠ 5 → getNextId n = 3) ∧
    (∀ s : AppState, Reachable s →
      (s.resource.id = 3 ∨ s.resource.id = 5 ∨ s.resource.id = 7) ∧
      (navStep s).resource.id = getNextId s.resource.id) := by
  refine ⟨by decide, by decide, by decide, ?_, ?_⟩
  · intro n hn3 hn5
    simp [getNextId, hn3, hn5]
  · intro s h
    refine ⟨?_, rfl⟩
    induction h with
    | init => exact Or.inl rfl
    | @next s' hs ih =>
      have hstep : (navStep s').resource.id = getNextId s'.resource.id := rfl
      rw [hstep]
      rcases ih with h | h | h <;> rw [h] <;> decide

/-- Witness for C10: `getNextId 10 = 3`, and the initial state is reachable
with its key among 3, 5, 7. -/
theorem getNextId_cycle_invariant_witness :
    ((10:Int) ≠ 3 ∧ (10:Int) ≠ 5 ∧ getNextId 10 = 3) ∧
    (Reachable initialAppState ∧
      (initialAppState.resource.id = 3 ∨ initialAppState.resource.id = 5 ∨
        initialAppState.resource.id = 7)) :=
  ⟨⟨by decide, by decide,
     getNextId_cycle_invariant.2.2.2.1 10 (by decide) (by decide)⟩,
   ⟨Reachable.init,
     (getNextId_cycle_invariant.2.2.2.2 initialAppState Reachable.init).1⟩⟩
